import Mathlib

/-!
# GATT/GAP profile plugin (profiles/gatt/gatt.c)

A shallow embedding of the plugin: the three module statics, the registries of
the daemon the plugin talks to, and the handlers of the file, written as
functions that pass the state explicitly.

Pointers are natural numbers (the address), a pointer that may be NULL is an
`Option`.  A byte buffer is a list of bytes whose length is the size of the
allocation; an access outside of it has no defined result and the function
returns `none`.
-/

namespace Gatt

/-- One `uint8_t`. -/
abbrev Octet := Fin 256

/-- A non-NULL `struct btd_attribute *`. -/
abbrev Attr := Nat

/-- A `struct btd_device *`. -/
abbrev Device := Nat

/-- A `struct btd_service *`. -/
abbrev Service := Nat

/-- A 16-bit UUID as built by `bt_uuid16_create`. -/
abbrev bt_uuid_t := Nat

/-- Value of `EIO` in errno.h. -/
def EIO : Int := 5

/-- Modelled from the spec: lib/uuid.h is not among the sources; the UUID of
the "Generic Access" service, with its Bluetooth assigned number. -/
def GENERIC_ACCESS_PROFILE_ID : bt_uuid_t := 0x1800

/-- Modelled from the spec: the UUID of the "Generic Attribute" service
(lib/uuid.h, assigned number). -/
def GENERIC_ATTRIB_PROFILE_ID : bt_uuid_t := 0x1801

/-- Modelled from the spec: the UUID of the "Device Name" characteristic
(lib/uuid.h, assigned number). -/
def GATT_CHARAC_DEVICE_NAME : bt_uuid_t := 0x2A00

/-- Modelled from the spec: the UUID of the "Appearance" characteristic
(lib/uuid.h, assigned number). -/
def GATT_CHARAC_APPEARANCE : bt_uuid_t := 0x2A01

/-- Modelled from the spec: the UUID of the "Service Changed" characteristic
(lib/uuid.h, assigned number). -/
def GATT_CHARAC_SERVICE_CHANGED : bt_uuid_t := 0x2A05

/-- Modelled from the spec: the UUID of the "Client Characteristic
Configuration" descriptor (lib/uuid.h, assigned number). -/
def GATT_CLIENT_CHARAC_CFG_UUID : bt_uuid_t := 0x2902

/-- Modelled from the spec: service.h is not among the sources; the connection
states of section 3 (disconnected, connecting, connected, disconnecting). -/
inductive btd_service_state_t
  | BTD_SERVICE_STATE_DISCONNECTED
  | BTD_SERVICE_STATE_CONNECTING
  | BTD_SERVICE_STATE_CONNECTED
  | BTD_SERVICE_STATE_DISCONNECTING
  deriving DecidableEq, Repr

open btd_service_state_t

/-- The functions of gatt.c that are handed to the daemon as callbacks. -/
inductive Callback
  | read_device_name_chr_cb
  | read_appearance_chr_cb
  | service_changed
  | state_changed
  deriving DecidableEq, Repr

/-- Modelled from the spec: the resolver of section 4.1 and the accessor from a
service to its device; gatt.h and service.h are not among the sources, so the
lookups over the already discovered topology are parameters of the model.
`btd_gatt_get_services` and `btd_gatt_get_chars_decl` return the list of
matches (empty when there is none), `btd_gatt_get_char_desc` the first match or
NULL, `btd_gatt_get_char_value` the value attribute of a declaration. -/
structure Env where
  btd_service_get_device : Service → Device
  btd_gatt_get_services : Device → bt_uuid_t → List Attr
  btd_gatt_get_chars_decl : Device → Attr → bt_uuid_t → List Attr
  btd_gatt_get_char_desc : Device → Attr → bt_uuid_t → Option Attr
  btd_gatt_get_char_value : Device → Attr → Attr

/-- Modelled from the spec: the peer record of section 3, with the two identity
fields this module updates and the connection state it never writes. -/
structure btd_device where
  name : List Octet
  appearance : Nat
  state : btd_service_state_t
  deriving DecidableEq, Repr

/-- One entry of the daemon's list of connection-state observers. -/
structure StateCb where
  id : Nat
  cb : Callback
  user_data : Service
  deriving DecidableEq, Repr

/-- One entry of the notifiers registered on an attribute. -/
structure Notifier where
  attr : Attr
  cb : Callback
  user_data : Device
  deriving DecidableEq, Repr

/-- One call of `btd_gatt_read_attribute`; `attr` may be NULL. -/
structure ReadReq where
  device : Device
  attr : Option Attr
  cb : Callback
  user_data : Device
  deriving DecidableEq, Repr

/-- One call of an identity accessor of the peer. -/
inductive AccessorCall
  | device_set_name (device : Device) (text : List Octet)
  | device_set_appearance (device : Device) (appearance : Nat)
  deriving DecidableEq, Repr

/-- The lines written by `DBG` and `error`. -/
inductive LogMsg
  | name_read_failed (err : Int)
  | name_read (text : List Octet)
  | appearance_read_failed (err : Int)
  | appearance_read (appearance : Nat)
  | remote_service_changed (len : Nat)
  | service_changed_range (start stop : Nat)
  | gatt_service_mandatory
  | service_changed_not_found
  | service_changed_ccc_not_found
  | probing_device
  | gap_service_mandatory
  | device_name_mandatory
  | appearance_mandatory
  | removing_device
  deriving DecidableEq, Repr

/-- The state the plugin runs in: the three statics of gatt.c (`service_state_id`,
`name`, `appearance`) and what the daemon keeps for it. -/
structure World where
  service_state_id : Nat
  name : Option Attr
  appearance : Option Attr
  state_callbacks : List StateCb
  state_cb_last_id : Nat
  notifiers : List Notifier
  reads : List ReadReq
  calls : List AccessorCall
  devices : Device → btd_device
  log : List LogMsg

/-- The statics as gatt.c initialises them, with empty registries. -/
def World.start (devices : Device → btd_device) : World :=
  { service_state_id := 0, name := none, appearance := none,
    state_callbacks := [], state_cb_last_id := 0, notifiers := [],
    reads := [], calls := [], devices := devices, log := [] }

/-- Append one line to the log (`DBG`, `error`). -/
def World.say (w : World) (m : LogMsg) : World :=
  { w with log := w.log ++ [m] }

/-- Modelled from the spec: `device_set_name` of device.h, the name-update
accessor of the peer; it stores the text in the display name. -/
def device_set_name (w : World) (device : Device) (text : List Octet) : World :=
  { w with
    calls := w.calls ++ [AccessorCall.device_set_name device text],
    devices := fun d => if d = device then { w.devices d with name := text } else w.devices d }

/-- Modelled from the spec: `device_set_appearance` of device.h, the
appearance-update accessor of the peer; it stores the 16-bit code. -/
def device_set_appearance (w : World) (device : Device) (appearance : Nat) : World :=
  { w with
    calls := w.calls ++ [AccessorCall.device_set_appearance device appearance],
    devices := fun d =>
      if d = device then { w.devices d with appearance := appearance } else w.devices d }

/-- Modelled from the spec: `att_get_u16` of attrib/att.h, the little-endian
16-bit integer held by the two bytes at `off`; `none` when one of the two bytes
lies outside the buffer. -/
def att_get_u16 (value : List Octet) (off : Nat) : Option Nat :=
  match value.get? off, value.get? (off + 1) with
  | some lo, some hi => some (lo.val + 256 * hi.val)
  | _, _ => none

/-- Modelled from the spec: `btd_gatt_read_attribute` of gatt.h; the read is
asynchronous, the call only queues the request. -/
def btd_gatt_read_attribute (w : World) (device : Device) (attr : Option Attr)
    (cb : Callback) (user_data : Device) : World :=
  { w with reads := w.reads ++ [⟨device, attr, cb, user_data⟩] }

/-- Modelled from the spec: `btd_gatt_add_notifier` of gatt.h; it records the
callback on the attribute. -/
def btd_gatt_add_notifier (w : World) (attr : Attr) (cb : Callback) (user_data : Device) :
    World :=
  { w with notifiers := w.notifiers ++ [⟨attr, cb, user_data⟩] }

/-- The identifier the next registration of an observer gets (an `unsigned int`
counter). -/
def World.next_state_cb_id (w : World) : Nat :=
  (w.state_cb_last_id + 1) % 2 ^ 32

/-- Modelled from the spec: `btd_service_add_state_cb` of service.h; it appends
the observer and returns the identifier used to remove it later. -/
def btd_service_add_state_cb (w : World) (cb : Callback) (user_data : Service) :
    Nat × World :=
  let id := w.next_state_cb_id
  (id, { w with state_cb_last_id := id,
                state_callbacks := w.state_callbacks ++ [⟨id, cb, user_data⟩] })

/-- Drop the first observer registered under `id`. -/
def remove_state_cb (id : Nat) : List StateCb → List StateCb
  | [] => []
  | c :: cs => if c.id = id then cs else c :: remove_state_cb id cs

/-- Modelled from the spec: `btd_service_remove_state_cb` of service.h; it
removes the observer registered under `id`, if there is one. -/
def btd_service_remove_state_cb (w : World) (id : Nat) : World :=
  { w with state_callbacks := remove_state_cb id w.state_callbacks }

/-- The C string that starts at the beginning of the buffer: the bytes before
the first NUL; `none` when the buffer holds no NUL. -/
def c_string : List Octet → Option (List Octet)
  | [] => none
  | b :: bs => if b = 0 then some [] else (c_string bs).map (fun s => b :: s)

/-- The value of `len - 1` in `size_t` arithmetic (64 bits). -/
def size_t_pred (len : Nat) : Nat :=
  (len + 2 ^ 64 - 1) % 2 ^ 64

/-- Completion of the Device Name read (gatt.c, `read_device_name_chr_cb`).
Returns the world and the buffer after the call. -/
def read_device_name_chr_cb (w : World) (err : Int) (value : List Octet) (len : Nat)
    (user_data : Device) : Option (World × List Octet) :=
  let device := user_data
  if err ≠ 0 then
    some (w.say (LogMsg.name_read_failed err), value)
  else if size_t_pred len < value.length then
    let value := value.set (size_t_pred len) 0
    match c_string value with
    | none => none
    | some text =>
      let w := w.say (LogMsg.name_read text)
      some (device_set_name w device text, value)
  else none

/-- Completion of the Appearance read (gatt.c, `read_appearance_chr_cb`). -/
def read_appearance_chr_cb (w : World) (err : Int) (value : List Octet) (_len : Nat)
    (user_data : Device) : Option (World × List Octet) :=
  let device := user_data
  if err ≠ 0 then
    some (w.say (LogMsg.appearance_read_failed err), value)
  else
    match att_get_u16 value 0 with
    | none => none
    | some appearance =>
      let w := w.say (LogMsg.appearance_read appearance)
      some (device_set_appearance w device appearance, value)

/-- The two reads issued on a connection (gatt.c, `refresh_gap`). -/
def refresh_gap (w : World) (device : Device) : World :=
  let w := btd_gatt_read_attribute w device w.name Callback.read_device_name_chr_cb device
  btd_gatt_read_attribute w device w.appearance Callback.read_appearance_chr_cb device

/-- Handler of a Service Changed indication (gatt.c, `service_changed`). -/
def service_changed (w : World) (value : List Octet) (len : Nat) (_user_data : Device) :
    Option (World × Bool) :=
  let w := w.say (LogMsg.remote_service_changed len)
  if len ≠ 4 then some (w, true)
  else
    match att_get_u16 value 0, att_get_u16 value 2 with
    | some start, some stop => some (w.say (LogMsg.service_changed_range start stop), true)
    | _, _ => none

/-- Resolution of the Generic Attribute service (gatt.c, `setup_gatt`). -/
def setup_gatt (env : Env) (w : World) (device : Device) : Int × World :=
  match env.btd_gatt_get_services device GENERIC_ATTRIB_PROFILE_ID with
  | [] => (- EIO, w.say LogMsg.gatt_service_mandatory)
  | gatt :: _ =>
    match env.btd_gatt_get_chars_decl device gatt GATT_CHARAC_SERVICE_CHANGED with
    | [] => (0, w.say LogMsg.service_changed_not_found)
    | attr :: _ =>
      match env.btd_gatt_get_char_desc device attr GATT_CLIENT_CHARAC_CFG_UUID with
      | none => (0, w.say LogMsg.service_changed_ccc_not_found)
      | some attr => (0, btd_gatt_add_notifier w attr Callback.service_changed device)

/-- Observer of the connection state (gatt.c, `state_changed`). -/
def state_changed (env : Env) (w : World) (service : Service)
    (_old_state new_state : btd_service_state_t) (user_data : Service) : World :=
  let device := env.btd_service_get_device service
  if service ≠ user_data then w
  else if new_state ≠ BTD_SERVICE_STATE_CONNECTED then w
  else refresh_gap w device

/-- Resolution of the Generic Access service (gatt.c, `setup_gap`). -/
def setup_gap (env : Env) (w : World) (device : Device) : Int × World :=
  let w := w.say LogMsg.probing_device
  match env.btd_gatt_get_services device GENERIC_ACCESS_PROFILE_ID with
  | [] => (- EIO, w.say LogMsg.gap_service_mandatory)
  | gap :: _ =>
    match env.btd_gatt_get_chars_decl device gap GATT_CHARAC_DEVICE_NAME with
    | [] => (- EIO, w.say LogMsg.device_name_mandatory)
    | decl :: _ =>
      let w := { w with name := some (env.btd_gatt_get_char_value device decl) }
      match env.btd_gatt_get_chars_decl device gap GATT_CHARAC_APPEARANCE with
      | [] => (- EIO, w.say LogMsg.appearance_mandatory)
      | decl :: _ =>
        (0, { w with appearance := some (env.btd_gatt_get_char_value device decl) })

/-- Probe of the profile on a service (gatt.c, `gatt_driver_probe`). -/
def gatt_driver_probe (env : Env) (w : World) (service : Service) : Int × World :=
  let device := env.btd_service_get_device service
  match setup_gap env w device with
  | (err, w) =>
    if err < 0 then (err, w)
    else
      match setup_gatt env w device with
      | (err, w) =>
        if err < 0 then (err, w)
        else
          match btd_service_add_state_cb w Callback.state_changed service with
          | (id, w) => (0, { w with service_state_id := id })

/-- Removal of the profile from a service (gatt.c, `gatt_driver_remove`). -/
def gatt_driver_remove (w : World) (_service : Service) : World :=
  let w := w.say LogMsg.removing_device
  btd_service_remove_state_cb w w.service_state_id

/-! ## The properties, in the words of the specification -/

/-- The first service with the given UUID that the resolver returns. -/
def spec_first_service (env : Env) (device : Device) (uuid : bt_uuid_t) : Option Attr :=
  (env.btd_gatt_get_services device uuid).head?

/-- The first characteristic declaration with the given UUID inside a service. -/
def spec_first_char (env : Env) (device : Device) (svc : Attr) (uuid : bt_uuid_t) :
    Option Attr :=
  (env.btd_gatt_get_chars_decl device svc uuid).head?

/-- The value handle of the first characteristic with the given UUID of the
first Generic Access service. -/
def spec_gap_value_handle (env : Env) (device : Device) (uuid : bt_uuid_t) : Option Attr :=
  (spec_first_service env device GENERIC_ACCESS_PROFILE_ID).bind fun gap =>
    (spec_first_char env device gap uuid).map fun decl =>
      env.btd_gatt_get_char_value device decl

/-- The Client Characteristic Configuration descriptor of the first Service
Changed characteristic of the first Generic Attribute service. -/
def spec_service_changed_ccc (env : Env) (device : Device) : Option Attr :=
  (spec_first_service env device GENERIC_ATTRIB_PROFILE_ID).bind fun gatt =>
    (spec_first_char env device gatt GATT_CHARAC_SERVICE_CHANGED).bind fun chr =>
      env.btd_gatt_get_char_desc device chr GATT_CLIENT_CHARAC_CFG_UUID

/-- All four mandatory elements are present: the Generic Access service, its
Device Name and Appearance characteristics, the Generic Attribute service. -/
def spec_mandatory_present (env : Env) (device : Device) : Prop :=
  (spec_gap_value_handle env device GATT_CHARAC_DEVICE_NAME).isSome = true ∧
  (spec_gap_value_handle env device GATT_CHARAC_APPEARANCE).isSome = true ∧
  (spec_first_service env device GENERIC_ATTRIB_PROFILE_ID).isSome = true

instance (env : Env) (device : Device) : Decidable (spec_mandatory_present env device) := by
  unfold spec_mandatory_present
  infer_instance

/-- One of the four mandatory elements is absent. -/
def spec_mandatory_absent (env : Env) (device : Device) : Prop :=
  spec_first_service env device GENERIC_ACCESS_PROFILE_ID = none ∨
  spec_gap_value_handle env device GATT_CHARAC_DEVICE_NAME = none ∨
  spec_gap_value_handle env device GATT_CHARAC_APPEARANCE = none ∨
  spec_first_service env device GENERIC_ATTRIB_PROFILE_ID = none

instance (env : Env) (device : Device) : Decidable (spec_mandatory_absent env device) := by
  unfold spec_mandatory_absent
  infer_instance

/-! ## A small topology to run the model on

Service `10 * d` belongs to device `d`.  Device 1 has the full standard stack,
device 2 has no Service Changed characteristic, device 3 has a Service Changed
characteristic without configuration descriptor, device 4 has no Appearance
characteristic, device 5 has no Generic Attribute service, the other devices
have no service at all. -/

/-- The resolver of the sample topology. -/
def demo : Env where
  btd_service_get_device s := s / 10
  btd_gatt_get_services d u :=
    if d = 0 ∨ 5 < d then []
    else if u = GENERIC_ACCESS_PROFILE_ID then [100 * d, 100 * d + 50]
    else if u = GENERIC_ATTRIB_PROFILE_ID ∧ d ≠ 5 then [100 * d + 10]
    else []
  btd_gatt_get_chars_decl d s u :=
    if s = 100 * d ∧ u = GATT_CHARAC_DEVICE_NAME then [s + 1, s + 5]
    else if s = 100 * d ∧ u = GATT_CHARAC_APPEARANCE ∧ d ≠ 4 then [s + 3]
    else if s = 100 * d + 10 ∧ u = GATT_CHARAC_SERVICE_CHANGED ∧ (d = 1 ∨ d = 3) then [s + 1]
    else []
  btd_gatt_get_char_desc d c u :=
    if c = 100 * d + 11 ∧ u = GATT_CLIENT_CHARAC_CFG_UUID ∧ d = 1 then some (c + 2) else none
  btd_gatt_get_char_value _ c := c + 1

/-- The peers of the sample topology before any read completes. -/
def demo_devices : Device → btd_device :=
  fun _ => { name := [], appearance := 0, state := BTD_SERVICE_STATE_DISCONNECTED }

/-- The sample world at start-up. -/
def demo_world : World := World.start demo_devices

/-! ## Shared lemmas and the claims -/

theorem neg_EIO_neg : (- EIO) < 0 := by decide

theorem setup_gap_frame (env : Env) (w : World) (device : Device) :
    (setup_gap env w device).2.reads = w.reads ∧
    (setup_gap env w device).2.notifiers = w.notifiers ∧
    (setup_gap env w device).2.state_callbacks = w.state_callbacks ∧
    (setup_gap env w device).2.state_cb_last_id = w.state_cb_last_id ∧
    (setup_gap env w device).2.service_state_id = w.service_state_id ∧
    (setup_gap env w device).2.calls = w.calls ∧
    (setup_gap env w device).2.devices = w.devices := by
  unfold setup_gap
  repeat' split
  all_goals simp [World.say]

theorem setup_gap_result (env : Env) (w : World) (device : Device) :
    ((setup_gap env w device).1 = 0 ∧
      (setup_gap env w device).2.name = spec_gap_value_handle env device GATT_CHARAC_DEVICE_NAME ∧
      (setup_gap env w device).2.appearance =
        spec_gap_value_handle env device GATT_CHARAC_APPEARANCE ∧
      (spec_gap_value_handle env device GATT_CHARAC_DEVICE_NAME).isSome = true ∧
      (spec_gap_value_handle env device GATT_CHARAC_APPEARANCE).isSome = true) ∨
    ((setup_gap env w device).1 = - EIO ∧
      (spec_first_service env device GENERIC_ACCESS_PROFILE_ID = none ∨
       spec_gap_value_handle env device GATT_CHARAC_DEVICE_NAME = none ∨
       spec_gap_value_handle env device GATT_CHARAC_APPEARANCE = none)) := by
  unfold setup_gap spec_gap_value_handle spec_first_service spec_first_char
  repeat' split
  all_goals simp_all [World.say]

theorem setup_gatt_frame (env : Env) (w : World) (device : Device) :
    (setup_gatt env w device).2.reads = w.reads ∧
    (setup_gatt env w device).2.state_callbacks = w.state_callbacks ∧
    (setup_gatt env w device).2.state_cb_last_id = w.state_cb_last_id ∧
    (setup_gatt env w device).2.service_state_id = w.service_state_id ∧
    (setup_gatt env w device).2.name = w.name ∧
    (setup_gatt env w device).2.appearance = w.appearance ∧
    (setup_gatt env w device).2.calls = w.calls ∧
    (setup_gatt env w device).2.devices = w.devices := by
  unfold setup_gatt
  repeat' split
  all_goals simp [World.say, btd_gatt_add_notifier]

theorem setup_gatt_result (env : Env) (w : World) (device : Device) :
    ((setup_gatt env w device).1 = 0 ∧
      (spec_first_service env device GENERIC_ATTRIB_PROFILE_ID).isSome = true ∧
      (setup_gatt env w device).2.notifiers = w.notifiers ++
        (match spec_service_changed_ccc env device with
         | some ccc => [⟨ccc, Callback.service_changed, device⟩]
         | none => [])) ∨
    ((setup_gatt env w device).1 = - EIO ∧
      spec_first_service env device GENERIC_ATTRIB_PROFILE_ID = none ∧
      (setup_gatt env w device).2.notifiers = w.notifiers) := by
  unfold setup_gatt spec_service_changed_ccc spec_first_service spec_first_char
  repeat' split
  all_goals simp_all [World.say, btd_gatt_add_notifier]

theorem gatt_driver_probe_eq (env : Env) (w : World) (service : Service) :
    gatt_driver_probe env w service =
      if (setup_gap env w (env.btd_service_get_device service)).1 < 0 then
        setup_gap env w (env.btd_service_get_device service)
      else if (setup_gatt env (setup_gap env w (env.btd_service_get_device service)).2
          (env.btd_service_get_device service)).1 < 0 then
        setup_gatt env (setup_gap env w (env.btd_service_get_device service)).2
          (env.btd_service_get_device service)
      else
        (0, { (btd_service_add_state_cb
                (setup_gatt env (setup_gap env w (env.btd_service_get_device service)).2
                  (env.btd_service_get_device service)).2
                Callback.state_changed service).2 with
              service_state_id :=
                (btd_service_add_state_cb
                  (setup_gatt env (setup_gap env w (env.btd_service_get_device service)).2
                    (env.btd_service_get_device service)).2
                  Callback.state_changed service).1 }) := by
  unfold gatt_driver_probe
  rfl

theorem gap_handle_some_first (env : Env) (device : Device) (uuid : bt_uuid_t)
    (h : (spec_gap_value_handle env device uuid).isSome = true) :
    spec_first_service env device GENERIC_ACCESS_PROFILE_ID ≠ none := by
  intro hn
  simp [spec_gap_value_handle, hn] at h

theorem spec_mandatory_absent_iff (env : Env) (device : Device) :
    spec_mandatory_absent env device ↔ ¬ spec_mandatory_present env device := by
  unfold spec_mandatory_absent spec_mandatory_present spec_gap_value_handle
  cases spec_first_service env device GENERIC_ATTRIB_PROFILE_ID <;>
    cases spec_first_service env device GENERIC_ACCESS_PROFILE_ID <;>
    simp [Option.isSome_iff_ne_none, imp_iff_not_or]

/-- C1: when one of the four mandatory elements is absent, the probe returns
`-EIO`, issues no read, registers no notifier and no observer. -/
theorem gatt_driver_probe_mandatory_absent (env : Env) (w : World) (service : Service)
    (h : spec_mandatory_absent env (env.btd_service_get_device service)) :
    (gatt_driver_probe env w service).1 = - EIO ∧
    (gatt_driver_probe env w service).1 < 0 ∧
    (gatt_driver_probe env w service).2.reads = w.reads ∧
    (gatt_driver_probe env w service).2.notifiers = w.notifiers ∧
    (gatt_driver_probe env w service).2.state_callbacks = w.state_callbacks := by
  rw [gatt_driver_probe_eq]
  obtain ⟨g1, g2, g3, -⟩ := setup_gap_frame env w (env.btd_service_get_device service)
  rcases setup_gap_result env w (env.btd_service_get_device service) with
    ⟨r0, -, -, hn, ha⟩ | ⟨r0, -⟩
  · have hgatt : spec_first_service env (env.btd_service_get_device service)
        GENERIC_ATTRIB_PROFILE_ID = none := by
      rcases h with h | h | h | h
      · exact absurd h (gap_handle_some_first env _ _ hn)
      · simp [h] at hn
      · simp [h] at ha
      · exact h
    obtain ⟨t1, t2, -⟩ := setup_gatt_frame env
      (setup_gap env w (env.btd_service_get_device service)).2
      (env.btd_service_get_device service)
    rcases setup_gatt_result env (setup_gap env w (env.btd_service_get_device service)).2
      (env.btd_service_get_device service) with ⟨-, hs, -⟩ | ⟨q0, -, q2⟩
    · simp [hgatt] at hs
    · have hq : (setup_gatt env (setup_gap env w (env.btd_service_get_device service)).2
          (env.btd_service_get_device service)).1 < 0 := by rw [q0]; exact neg_EIO_neg
      rw [if_neg (by rw [r0]; decide), if_pos hq]
      exact ⟨q0, hq, t1.trans g1, q2.trans g2, t2.trans g3⟩
  · have hr : (setup_gap env w (env.btd_service_get_device service)).1 < 0 := by
      rw [r0]; exact neg_EIO_neg
    rw [if_pos hr]
    exact ⟨r0, hr, g1, g2, g3⟩

/-- C1, on the sample topology: device 4 has no Appearance characteristic. -/
theorem gatt_driver_probe_mandatory_absent_witness :
    spec_mandatory_absent demo (demo.btd_service_get_device 40) ∧
    (gatt_driver_probe demo demo_world 40).1 = - EIO ∧
    (gatt_driver_probe demo demo_world 40).1 < 0 ∧
    (gatt_driver_probe demo demo_world 40).2.reads = demo_world.reads ∧
    (gatt_driver_probe demo demo_world 40).2.notifiers = demo_world.notifiers ∧
    (gatt_driver_probe demo demo_world 40).2.state_callbacks = demo_world.state_callbacks :=
  ⟨by decide,
   gatt_driver_probe_mandatory_absent demo demo_world 40 (by decide)⟩

theorem gatt_driver_probe_ok (env : Env) (w : World) (service : Service)
    (h0 : (setup_gap env w (env.btd_service_get_device service)).1 = 0)
    (h1 : (setup_gatt env (setup_gap env w (env.btd_service_get_device service)).2
            (env.btd_service_get_device service)).1 = 0) :
    gatt_driver_probe env w service =
      (0, { (btd_service_add_state_cb
                (setup_gatt env (setup_gap env w (env.btd_service_get_device service)).2
                  (env.btd_service_get_device service)).2
                Callback.state_changed service).2 with
              service_state_id :=
                (btd_service_add_state_cb
                  (setup_gatt env (setup_gap env w (env.btd_service_get_device service)).2
                    (env.btd_service_get_device service)).2
                  Callback.state_changed service).1 }) := by
  rw [gatt_driver_probe_eq, if_neg (by rw [h0]; decide), if_neg (by rw [h1]; decide)]

theorem gatt_driver_probe_zero (env : Env) (w : World) (service : Service)
    (h : (gatt_driver_probe env w service).1 = 0) :
    (setup_gap env w (env.btd_service_get_device service)).1 = 0 ∧
    (setup_gatt env (setup_gap env w (env.btd_service_get_device service)).2
      (env.btd_service_get_device service)).1 = 0 := by
  rw [gatt_driver_probe_eq] at h
  rcases setup_gap_result env w (env.btd_service_get_device service) with
    ⟨r0, -⟩ | ⟨r0, -⟩
  · refine ⟨r0, ?_⟩
    rw [if_neg (by rw [r0]; decide)] at h
    rcases setup_gatt_result env (setup_gap env w (env.btd_service_get_device service)).2
      (env.btd_service_get_device service) with ⟨q0, -⟩ | ⟨q0, -⟩
    · exact q0
    · rw [if_pos (by rw [q0]; exact neg_EIO_neg), q0] at h
      exact absurd h (by decide)
  · rw [if_pos (by rw [r0]; exact neg_EIO_neg), r0] at h
    exact absurd h (by decide)

theorem mandatory_present_setup (env : Env) (w : World) (service : Service)
    (h : spec_mandatory_present env (env.btd_service_get_device service)) :
    (setup_gap env w (env.btd_service_get_device service)).1 = 0 ∧
    (setup_gatt env (setup_gap env w (env.btd_service_get_device service)).2
      (env.btd_service_get_device service)).1 = 0 := by
  obtain ⟨hn, ha, hg⟩ := h
  constructor
  · rcases setup_gap_result env w (env.btd_service_get_device service) with
      ⟨r0, -⟩ | ⟨-, h1 | h1 | h1⟩
    · exact r0
    · exact absurd h1 (gap_handle_some_first env _ _ hn)
    · simp [h1] at hn
    · simp [h1] at ha
  · rcases setup_gatt_result env (setup_gap env w (env.btd_service_get_device service)).2
      (env.btd_service_get_device service) with ⟨q0, -⟩ | ⟨-, q1, -⟩
    · exact q0
    · simp [q1] at hg

/-- C2: when the four mandatory elements are present the probe returns 0 and
appends exactly one observer (`state_changed`, for the probed service); it appends
exactly one notifier (`service_changed`, on the configuration descriptor) when the
first Generic Attribute service has a Service Changed characteristic whose first
instance has that descriptor, and none otherwise. -/
theorem gatt_driver_probe_mandatory_present (env : Env) (w : World) (service : Service)
    (h : spec_mandatory_present env (env.btd_service_get_device service)) :
    (gatt_driver_probe env w service).1 = 0 ∧
    (gatt_driver_probe env w service).2.state_callbacks =
      w.state_callbacks ++ [⟨w.next_state_cb_id, Callback.state_changed, service⟩] ∧
    (gatt_driver_probe env w service).2.service_state_id = w.next_state_cb_id ∧
    (∀ ccc, spec_service_changed_ccc env (env.btd_service_get_device service) = some ccc →
      (gatt_driver_probe env w service).2.notifiers =
        w.notifiers ++ [⟨ccc, Callback.service_changed, env.btd_service_get_device service⟩]) ∧
    (spec_service_changed_ccc env (env.btd_service_get_device service) = none →
      (gatt_driver_probe env w service).2.notifiers = w.notifiers) ∧
    (gatt_driver_probe env w service).2.reads = w.reads := by
  obtain ⟨h0, h1⟩ := mandatory_present_setup env w service h
  rw [gatt_driver_probe_ok env w service h0 h1]
  obtain ⟨g1, g2, g3, g4, -⟩ := setup_gap_frame env w (env.btd_service_get_device service)
  obtain ⟨t1, t2, t3, -⟩ := setup_gatt_frame env
    (setup_gap env w (env.btd_service_get_device service)).2
    (env.btd_service_get_device service)
  have hn : (setup_gatt env (setup_gap env w (env.btd_service_get_device service)).2
      (env.btd_service_get_device service)).2.notifiers = w.notifiers ++
        (match spec_service_changed_ccc env (env.btd_service_get_device service) with
         | some ccc => [⟨ccc, Callback.service_changed, env.btd_service_get_device service⟩]
         | none => []) := by
    rcases setup_gatt_result env (setup_gap env w (env.btd_service_get_device service)).2
      (env.btd_service_get_device service) with ⟨-, -, q2⟩ | ⟨q0, -⟩
    · rw [q2, g2]
    · rw [q0] at h1
      exact absurd h1 (by decide)
  simp only [btd_service_add_state_cb, World.next_state_cb_id, t2, t3, g3, g4, t1, g1, hn]
  refine ⟨trivial, trivial, trivial, ?_, ?_, trivial⟩
  · intro ccc hc
    rw [hc]
  · intro hc
    rw [hc]
    simp

/-- C2, on the sample topology: device 1 has the full stack, the notifier is put
on descriptor 113; device 2 has no Service Changed characteristic and device 3
no configuration descriptor, the probe succeeds without notifier. -/
theorem gatt_driver_probe_mandatory_present_witness :
    spec_mandatory_present demo (demo.btd_service_get_device 10) ∧
    (gatt_driver_probe demo demo_world 10).1 = 0 ∧
    (gatt_driver_probe demo demo_world 10).2.state_callbacks =
      [⟨1, Callback.state_changed, 10⟩] ∧
    (gatt_driver_probe demo demo_world 10).2.notifiers =
      [⟨113, Callback.service_changed, 1⟩] ∧
    (gatt_driver_probe demo demo_world 20).1 = 0 ∧
    (gatt_driver_probe demo demo_world 20).2.notifiers = [] ∧
    (gatt_driver_probe demo demo_world 30).1 = 0 ∧
    (gatt_driver_probe demo demo_world 30).2.notifiers = [] :=
  have h1 := gatt_driver_probe_mandatory_present demo demo_world 10 (by decide)
  have h2 := gatt_driver_probe_mandatory_present demo demo_world 20 (by decide)
  have h3 := gatt_driver_probe_mandatory_present demo demo_world 30 (by decide)
  ⟨by decide, h1.1, h1.2.1, h1.2.2.2.1 113 (by decide), h2.1, h2.2.2.2.2.1 (by decide),
   h3.1, h3.2.2.2.2.1 (by decide)⟩

/-- C3: after a probe that returns 0 the cached Name handle is the value handle
of the first Device Name characteristic of the first Generic Access service, the
cached Appearance handle that of the first Appearance characteristic of the same
service, and both are set. -/
theorem gatt_driver_probe_caches_handles (env : Env) (w : World) (service : Service)
    (h : (gatt_driver_probe env w service).1 = 0) :
    (gatt_driver_probe env w service).2.name =
      spec_gap_value_handle env (env.btd_service_get_device service)
        GATT_CHARAC_DEVICE_NAME ∧
    (gatt_driver_probe env w service).2.appearance =
      spec_gap_value_handle env (env.btd_service_get_device service)
        GATT_CHARAC_APPEARANCE ∧
    (gatt_driver_probe env w service).2.name.isSome = true ∧
    (gatt_driver_probe env w service).2.appearance.isSome = true := by
  obtain ⟨h0, h1⟩ := gatt_driver_probe_zero env w service h
  rw [gatt_driver_probe_ok env w service h0 h1]
  obtain ⟨-, -, -, -, t5, t6, -⟩ := setup_gatt_frame env
    (setup_gap env w (env.btd_service_get_device service)).2
    (env.btd_service_get_device service)
  rcases setup_gap_result env w (env.btd_service_get_device service) with
    ⟨-, rn, ra, sn, sa⟩ | ⟨r0, -⟩
  · simp only [btd_service_add_state_cb, t5, t6, rn, ra, sn, sa]
    exact ⟨trivial, trivial, trivial, trivial⟩
  · rw [r0] at h0
    exact absurd h0 (by decide)

/-- C3, on the sample topology: the probe of device 1 caches handles 102 and 104. -/
theorem gatt_driver_probe_caches_handles_witness :
    (gatt_driver_probe demo demo_world 10).1 = 0 ∧
    (gatt_driver_probe demo demo_world 10).2.name = some 102 ∧
    (gatt_driver_probe demo demo_world 10).2.appearance = some 104 :=
  have h := gatt_driver_probe_caches_handles demo demo_world 10 (by decide)
  ⟨by decide, h.1.trans (by decide), h.2.1.trans (by decide)⟩

/-- C4: `state_changed` issues no read when the event is for another service or
the new state is not CONNECTED; otherwise, whatever the old state, it issues
exactly two reads on the device of the service, one of the cached Name handle
completed by `read_device_name_chr_cb` and one of the cached Appearance handle
completed by `read_appearance_chr_cb`, and changes nothing else.  Two connected
events issue four reads. -/
theorem state_changed_reads (env : Env) (w : World) (service user_data : Service)
    (old_state new_state old_state2 : btd_service_state_t) :
    state_changed env w service old_state new_state user_data =
      (if service = user_data ∧ new_state = BTD_SERVICE_STATE_CONNECTED then
        { w with reads := w.reads ++
            [⟨env.btd_service_get_device service, w.name,
                Callback.read_device_name_chr_cb, env.btd_service_get_device service⟩,
             ⟨env.btd_service_get_device service, w.appearance,
                Callback.read_appearance_chr_cb, env.btd_service_get_device service⟩] }
       else w) ∧
    (state_changed env
        (state_changed env w service old_state BTD_SERVICE_STATE_CONNECTED service)
        service old_state2 BTD_SERVICE_STATE_CONNECTED service).reads =
      w.reads ++
        [⟨env.btd_service_get_device service, w.name,
            Callback.read_device_name_chr_cb, env.btd_service_get_device service⟩,
         ⟨env.btd_service_get_device service, w.appearance,
            Callback.read_appearance_chr_cb, env.btd_service_get_device service⟩,
         ⟨env.btd_service_get_device service, w.name,
            Callback.read_device_name_chr_cb, env.btd_service_get_device service⟩,
         ⟨env.btd_service_get_device service, w.appearance,
            Callback.read_appearance_chr_cb, env.btd_service_get_device service⟩] := by
  constructor
  · unfold state_changed refresh_gap btd_gatt_read_attribute
    by_cases h1 : service = user_data
    · by_cases h2 : new_state = BTD_SERVICE_STATE_CONNECTED
      · simp [h1, h2]
      · simp [h1, h2]
    · simp [h1]
  · simp [state_changed, refresh_gap, btd_gatt_read_attribute]

theorem c_string_append_nul (p s : List Octet) :
    c_string (p ++ (0 : Octet) :: s) = some (p.takeWhile (fun b => b ≠ 0)) := by
  induction p with
  | nil => simp [c_string]
  | cons b bs ih =>
    by_cases hb : b = 0
    · simp [c_string, hb]
    · simp [c_string, hb, ih]

theorem size_t_pred_eq (len : Nat) (h1 : 1 ≤ len) (h2 : len < 2 ^ 64) :
    size_t_pred len = len - 1 := by
  unfold size_t_pred
  omega

theorem set_last_eq (value : List Octet) (h1 : 1 ≤ value.length) (x : Octet) :
    value.set (value.length - 1) x = value.take (value.length - 1) ++ [x] := by
  induction value with
  | nil => simp at h1
  | cons b bs ih =>
    cases bs with
    | nil => simp
    | cons c cs =>
      have := ih (by simp)
      simp only [List.length_cons, Nat.add_sub_cancel] at this ⊢
      simp [List.set, List.take, this]

/-- C5: a successful Name-read completion whose payload has `len ≥ 1` bytes
writes the terminator over the last byte and calls `device_set_name` exactly once,
with the first `len - 1` bytes of the payload cut at their first NUL; the name of
the peer becomes that text, whatever the state of the peer. -/
theorem read_device_name_chr_cb_applies (w : World) (value : List Octet) (len : Nat)
    (device : Device) (hlen : value.length = len) (h1 : 1 ≤ len) (h2 : len < 2 ^ 64) :
    ∃ w', read_device_name_chr_cb w 0 value len device =
        some (w', value.take (len - 1) ++ [0]) ∧
      w'.calls = w.calls ++ [AccessorCall.device_set_name device
        ((value.take (len - 1)).takeWhile (fun b => b ≠ 0))] ∧
      (w'.devices device).name = (value.take (len - 1)).takeWhile (fun b => b ≠ 0) ∧
      (w'.devices device).state = (w.devices device).state ∧
      w'.reads = w.reads := by
  subst hlen
  have hp := size_t_pred_eq value.length h1 h2
  have hs := set_last_eq value h1 0
  have hc := c_string_append_nul (value.take (value.length - 1)) []
  unfold read_device_name_chr_cb
  simp only [hp, hs, hc]
  have hlt : value.length - 1 < value.length := by omega
  simp [hlt, device_set_name, World.say]

/-- C5, on the payload `Widget\0` of length 7: the applied name is `Widget`. -/
theorem read_device_name_chr_cb_applies_witness :
    ([0x57, 0x69, 0x64, 0x67, 0x65, 0x74, 0x00] : List Octet).length = 7 ∧
    String.mk (([0x57, 0x69, 0x64, 0x67, 0x65, 0x74] : List Octet).map
      (fun b => Char.ofNat b.val)) = "Widget" ∧
    ∃ w', read_device_name_chr_cb demo_world 0 [0x57, 0x69, 0x64, 0x67, 0x65, 0x74, 0x00] 7 1 =
        some (w', [0x57, 0x69, 0x64, 0x67, 0x65, 0x74, 0x00]) ∧
      w'.calls = [AccessorCall.device_set_name 1 [0x57, 0x69, 0x64, 0x67, 0x65, 0x74]] ∧
      (w'.devices 1).name = [0x57, 0x69, 0x64, 0x67, 0x65, 0x74] ∧
      (w'.devices 1).state = (demo_world.devices 1).state ∧
      w'.reads = demo_world.reads :=
  ⟨rfl, by decide,
   read_device_name_chr_cb_applies demo_world [0x57, 0x69, 0x64, 0x67, 0x65, 0x74, 0x00] 7 1
     rfl (by decide) (by decide)⟩

theorem att_get_u16_cons (lo hi : Octet) (rest : List Octet) :
    att_get_u16 (lo :: hi :: rest) 0 = some (lo.val + 256 * hi.val) := by
  simp [att_get_u16]

/-- C6: a successful Appearance-read completion whose payload has at least two
bytes calls `device_set_appearance` exactly once with `value[0] + 256 * value[1]`,
a 16-bit value; the bytes after the second are ignored, the payload and the list
of issued reads are left as they were. -/
theorem read_appearance_chr_cb_applies (w : World) (value : List Octet) (len : Nat)
    (device : Device) (h : 2 ≤ value.length) :
    ∃ w', read_appearance_chr_cb w 0 value len device = some (w', value) ∧
      w'.calls = w.calls ++
        [AccessorCall.device_set_appearance device (value[0].val + 256 * value[1].val)] ∧
      (w'.devices device).appearance = value[0].val + 256 * value[1].val ∧
      value[0].val + 256 * value[1].val < 2 ^ 16 ∧
      w'.reads = w.reads := by
  match value, h with
  | lo :: hi :: rest, _ =>
    unfold read_appearance_chr_cb
    rw [att_get_u16_cons]
    refine ⟨_, by simp; rfl, ?_, ?_, ?_, ?_⟩
    · simp [device_set_appearance, World.say]
    · simp [device_set_appearance]
    · have := lo.isLt
      have := hi.isLt
      simp only [List.getElem_cons_zero, List.getElem_cons_succ]
      omega
    · simp [device_set_appearance, World.say]

/-- C6, the payload `[0x40, 0x03]` is applied as appearance `0x0340`. -/
theorem read_appearance_chr_cb_applies_witness :
    2 ≤ ([0x40, 0x03] : List Octet).length ∧
    ∃ w', read_appearance_chr_cb demo_world 0 [0x40, 0x03] 2 1 = some (w', [0x40, 0x03]) ∧
      w'.calls = [AccessorCall.device_set_appearance 1 0x0340] ∧
      (w'.devices 1).appearance = 0x0340 ∧
      0x0340 < 2 ^ 16 ∧
      w'.reads = demo_world.reads :=
  ⟨by decide, read_appearance_chr_cb_applies demo_world [0x40, 0x03] 2 1 (by decide)⟩

/-- C7: a read completion that carries an error only writes a line to the log:
no accessor is called, the peers, the payload, the cached handles and the list
of issued reads are what they were, for every payload and every length. -/
theorem read_completion_error_ignored (w : World) (err : Int) (value : List Octet)
    (len : Nat) (device : Device) (herr : err ≠ 0) :
    read_device_name_chr_cb w err value len device =
      some ({ w with log := w.log ++ [LogMsg.name_read_failed err] }, value) ∧
    read_appearance_chr_cb w err value len device =
      some ({ w with log := w.log ++ [LogMsg.appearance_read_failed err] }, value) := by
  simp [read_device_name_chr_cb, read_appearance_chr_cb, herr, World.say]

/-- C7, for error 5 on an empty payload of declared length 0. -/
theorem read_completion_error_ignored_witness :
    (5 : Int) ≠ 0 ∧
    read_device_name_chr_cb demo_world 5 [] 0 1 =
      some ({ demo_world with log := demo_world.log ++ [LogMsg.name_read_failed 5] }, []) ∧
    read_appearance_chr_cb demo_world 5 [] 0 1 =
      some ({ demo_world with log := demo_world.log ++ [LogMsg.appearance_read_failed 5] }, []) :=
  ⟨by decide, read_completion_error_ignored demo_world 5 [] 0 1 (by decide)⟩

/-- C8: `service_changed` returns true for a payload of any length and only
writes to the log.  With four bytes it decodes `start = value[0] + 256 * value[1]`
and `end = value[2] + 256 * value[3]`; with any other length the result does not
depend on the payload, no byte of it is read. -/
theorem service_changed_stays_subscribed (w : World) (value : List Octet) (len : Nat)
    (user_data : Device) (hlen : value.length = len) :
    ∃ lines, service_changed w value len user_data =
        some ({ w with log := w.log ++ lines }, true) ∧
      (len ≠ 4 → lines = [LogMsg.remote_service_changed len] ∧
        ∀ other : List Octet, service_changed w other len user_data =
          some ({ w with log := w.log ++ [LogMsg.remote_service_changed len] }, true)) ∧
      (len = 4 → ∃ b0 b1 b2 b3 : Octet, value = [b0, b1, b2, b3] ∧
        lines = [LogMsg.remote_service_changed 4,
          LogMsg.service_changed_range (b0.val + 256 * b1.val) (b2.val + 256 * b3.val)]) := by
  subst hlen
  by_cases h4 : value.length = 4
  · match value, h4 with
    | [b0, b1, b2, b3], _ =>
      refine ⟨[LogMsg.remote_service_changed 4,
          LogMsg.service_changed_range (b0.val + 256 * b1.val) (b2.val + 256 * b3.val)],
        ?_, ?_, ?_⟩
      · simp [service_changed, att_get_u16, World.say]
      · intro h
        exact absurd rfl h
      · intro _
        exact ⟨b0, b1, b2, b3, rfl, rfl⟩
  · refine ⟨[LogMsg.remote_service_changed value.length], ?_, ?_, ?_⟩
    · simp [service_changed, h4, World.say]
    · intro _
      refine ⟨rfl, ?_⟩
      intro other
      simp [service_changed, h4, World.say]
    · intro h
      exact absurd h h4

/-- C8, on `[0x01, 0x00, 0x10, 0x00]`: start is `0x0001`, end is `0x0010`. -/
theorem service_changed_stays_subscribed_witness :
    ([0x01, 0x00, 0x10, 0x00] : List Octet).length = 4 ∧
    service_changed demo_world [0x01, 0x00, 0x10, 0x00] 4 1 =
      some ({ demo_world with log := demo_world.log ++
        [LogMsg.remote_service_changed 4, LogMsg.service_changed_range 0x0001 0x0010] }, true) ∧
    ∃ lines, service_changed demo_world [0x01, 0x00, 0x10] 3 1 =
        some ({ demo_world with log := demo_world.log ++ lines }, true) ∧
      ((3 : Nat) ≠ 4 → lines = [LogMsg.remote_service_changed 3] ∧
        ∀ other : List Octet, service_changed demo_world other 3 1 =
          some ({ demo_world with
            log := demo_world.log ++ [LogMsg.remote_service_changed 3] }, true)) ∧
      ((3 : Nat) = 4 → ∃ b0 b1 b2 b3 : Octet, [0x01, 0x00, 0x10] = [b0, b1, b2, b3] ∧
        lines = [LogMsg.remote_service_changed 4,
          LogMsg.service_changed_range (b0.val + 256 * b1.val) (b2.val + 256 * b3.val)]) :=
  ⟨rfl, rfl, service_changed_stays_subscribed demo_world [0x01, 0x00, 0x10] 3 1 rfl⟩

theorem gatt_driver_probe_post (env : Env) (w : World) (service : Service)
    (h : (gatt_driver_probe env w service).1 = 0) :
    (gatt_driver_probe env w service).2.name =
      spec_gap_value_handle env (env.btd_service_get_device service)
        GATT_CHARAC_DEVICE_NAME ∧
    (gatt_driver_probe env w service).2.appearance =
      spec_gap_value_handle env (env.btd_service_get_device service)
        GATT_CHARAC_APPEARANCE ∧
    (gatt_driver_probe env w service).2.state_callbacks =
      w.state_callbacks ++ [⟨w.next_state_cb_id, Callback.state_changed, service⟩] ∧
    (gatt_driver_probe env w service).2.service_state_id = w.next_state_cb_id ∧
    (gatt_driver_probe env w service).2.state_cb_last_id = w.next_state_cb_id ∧
    (gatt_driver_probe env w service).2.reads = w.reads ∧
    (gatt_driver_probe env w service).2.notifiers = w.notifiers ++
      (match spec_service_changed_ccc env (env.btd_service_get_device service) with
       | some ccc => [⟨ccc, Callback.service_changed, env.btd_service_get_device service⟩]
       | none => []) := by
  obtain ⟨h0, h1⟩ := gatt_driver_probe_zero env w service h
  rw [gatt_driver_probe_ok env w service h0 h1]
  obtain ⟨g1, g2, g3, g4, -⟩ := setup_gap_frame env w (env.btd_service_get_device service)
  obtain ⟨t1, t2, t3, -, t5, t6, -⟩ := setup_gatt_frame env
    (setup_gap env w (env.btd_service_get_device service)).2
    (env.btd_service_get_device service)
  have hn : (setup_gatt env (setup_gap env w (env.btd_service_get_device service)).2
      (env.btd_service_get_device service)).2.notifiers = w.notifiers ++
        (match spec_service_changed_ccc env (env.btd_service_get_device service) with
         | some ccc => [⟨ccc, Callback.service_changed, env.btd_service_get_device service⟩]
         | none => []) := by
    rcases setup_gatt_result env (setup_gap env w (env.btd_service_get_device service)).2
      (env.btd_service_get_device service) with ⟨-, -, q2⟩ | ⟨q0, -⟩
    · rw [q2, g2]
    · rw [q0] at h1
      exact absurd h1 (by decide)
  rcases setup_gap_result env w (env.btd_service_get_device service) with
    ⟨-, rn, ra, -, -⟩ | ⟨r0, -⟩
  · simp only [btd_service_add_state_cb, World.next_state_cb_id, t1, t2, t3, t5, t6, g1, g3,
      g4, rn, ra, hn]
    exact ⟨trivial, trivial, trivial, trivial, trivial, trivial, trivial⟩
  · rw [r0] at h0
    exact absurd h0 (by decide)

theorem remove_state_cb_append (id : Nat) (cb : Callback) (user_data : Service)
    (l : List StateCb) (hfresh : ∀ c ∈ l, c.id ≠ id) :
    remove_state_cb id (l ++ [⟨id, cb, user_data⟩]) = l := by
  induction l with
  | nil => simp [remove_state_cb]
  | cons c cs ih =>
    have hc : c.id ≠ id := hfresh c (List.mem_cons_self _ _)
    have := ih (fun x hx => hfresh x (List.mem_cons_of_mem _ hx))
    simp [remove_state_cb, hc, this]

/-- C9, as the code has it: after a successful probe `gatt_driver_remove` removes
the observer that probe registered, exactly once (the list of observers is again
the one from before the probe), and leaves the notifiers as the probe left them:
a `service_changed` notifier the probe put on the configuration descriptor stays
registered. -/
theorem gatt_driver_remove_after_probe (env : Env) (w : World) (service : Service)
    (h : (gatt_driver_probe env w service).1 = 0)
    (hfresh : ∀ c ∈ w.state_callbacks, c.id ≠ w.next_state_cb_id) :
    (gatt_driver_probe env w service).2.state_callbacks =
      w.state_callbacks ++ [⟨w.next_state_cb_id, Callback.state_changed, service⟩] ∧
    (gatt_driver_remove (gatt_driver_probe env w service).2 service).state_callbacks =
      w.state_callbacks ∧
    (gatt_driver_remove (gatt_driver_probe env w service).2 service).notifiers =
      (gatt_driver_probe env w service).2.notifiers ∧
    (∀ ccc, spec_service_changed_ccc env (env.btd_service_get_device service) = some ccc →
      (⟨ccc, Callback.service_changed, env.btd_service_get_device service⟩ : Notifier) ∈
        (gatt_driver_remove (gatt_driver_probe env w service).2 service).notifiers) := by
  obtain ⟨-, -, p3, p4, -, -, p7⟩ := gatt_driver_probe_post env w service h
  refine ⟨p3, ?_, ?_, ?_⟩
  · simp only [gatt_driver_remove, btd_service_remove_state_cb, World.say, p3, p4]
    exact remove_state_cb_append _ _ _ _ hfresh
  · simp [gatt_driver_remove, btd_service_remove_state_cb, World.say]
  · intro ccc hc
    simp [gatt_driver_remove, btd_service_remove_state_cb, World.say, p7, hc]

/-- C9, on the sample topology: probe then removal of service 10. -/
theorem gatt_driver_remove_after_probe_witness :
    (gatt_driver_probe demo demo_world 10).1 = 0 ∧
    (gatt_driver_probe demo demo_world 10).2.state_callbacks =
      [⟨1, Callback.state_changed, 10⟩] ∧
    (gatt_driver_remove (gatt_driver_probe demo demo_world 10).2 10).state_callbacks = [] ∧
    (gatt_driver_remove (gatt_driver_probe demo demo_world 10).2 10).notifiers =
      (gatt_driver_probe demo demo_world 10).2.notifiers :=
  have h := gatt_driver_remove_after_probe demo demo_world 10 (by decide) (by decide)
  ⟨by decide, h.1, h.2.1, h.2.2.1⟩

/-- C9 as stated fails: on the full stack of device 1 the probe registers the
`service_changed` notifier on descriptor 113 and it is still registered after
`gatt_driver_remove`. -/
theorem gatt_driver_remove_keeps_notifier :
    (gatt_driver_probe demo demo_world 10).1 = 0 ∧
    (gatt_driver_probe demo demo_world 10).2.notifiers =
      [⟨113, Callback.service_changed, 1⟩] ∧
    (gatt_driver_remove (gatt_driver_probe demo demo_world 10).2 10).notifiers =
      [⟨113, Callback.service_changed, 1⟩] ∧
    ¬ ((⟨113, Callback.service_changed, 1⟩ : Notifier) ∉
        (gatt_driver_remove (gatt_driver_probe demo demo_world 10).2 10).notifiers) := by
  decide

theorem next_id_ne (n : Nat) : (n % 2 ^ 32 + 1) % 2 ^ 32 ≠ n % 2 ^ 32 := by
  omega

/-- C10, as the code has it: the module keeps one pair of handles and one observer
id, those of the latest successful probe.  After successful probes of A and then
B, a connected event for the service of A issues two reads on the device of A
whose targets are the Name and Appearance value handles resolved from the Generic
Access service of B, and `gatt_driver_remove` of the service of A removes the
observer registered for B, the one of A stays registered. -/
theorem probes_share_cache (env : Env) (w : World) (sA sB : Service)
    (old_state : btd_service_state_t)
    (hA : (gatt_driver_probe env w sA).1 = 0)
    (hB : (gatt_driver_probe env (gatt_driver_probe env w sA).2 sB).1 = 0)
    (hfresh : ∀ c ∈ w.state_callbacks, c.id ≠ (w.next_state_cb_id + 1) % 2 ^ 32) :
    (state_changed env (gatt_driver_probe env (gatt_driver_probe env w sA).2 sB).2
        sA old_state BTD_SERVICE_STATE_CONNECTED sA).reads =
      w.reads ++
        [⟨env.btd_service_get_device sA,
            spec_gap_value_handle env (env.btd_service_get_device sB) GATT_CHARAC_DEVICE_NAME,
            Callback.read_device_name_chr_cb, env.btd_service_get_device sA⟩,
         ⟨env.btd_service_get_device sA,
            spec_gap_value_handle env (env.btd_service_get_device sB) GATT_CHARAC_APPEARANCE,
            Callback.read_appearance_chr_cb, env.btd_service_get_device sA⟩] ∧
    (gatt_driver_probe env (gatt_driver_probe env w sA).2 sB).2.state_callbacks =
      w.state_callbacks ++ [⟨w.next_state_cb_id, Callback.state_changed, sA⟩,
        ⟨(w.next_state_cb_id + 1) % 2 ^ 32, Callback.state_changed, sB⟩] ∧
    (gatt_driver_remove (gatt_driver_probe env (gatt_driver_probe env w sA).2 sB).2
        sA).state_callbacks =
      w.state_callbacks ++ [⟨w.next_state_cb_id, Callback.state_changed, sA⟩] := by
  obtain ⟨-, -, a3, -, a5, a6, -⟩ := gatt_driver_probe_post env w sA hA
  obtain ⟨b1, b2, b3, b4, -, b6, -⟩ :=
    gatt_driver_probe_post env (gatt_driver_probe env w sA).2 sB hB
  have hid : (gatt_driver_probe env w sA).2.next_state_cb_id =
      (w.next_state_cb_id + 1) % 2 ^ 32 := by
    simp only [World.next_state_cb_id, a5]
  rw [hid] at b3 b4
  refine ⟨?_, ?_, ?_⟩
  · simp [state_changed, refresh_gap, btd_gatt_read_attribute, b1, b2, b6, a6]
  · rw [b3, a3]
    simp
  · simp only [gatt_driver_remove, btd_service_remove_state_cb, World.say, b3, b4, a3]
    apply remove_state_cb_append
    intro c hc
    rcases List.mem_append.mp hc with hc | hc
    · exact hfresh c hc
    · rw [List.mem_singleton] at hc
      subst hc
      exact (next_id_ne (w.state_cb_last_id + 1)).symm

/-- C10, on the sample topology: A is service 10 of device 1, B service 20 of
device 2. -/
theorem probes_share_cache_witness :
    (gatt_driver_probe demo demo_world 10).1 = 0 ∧
    (gatt_driver_probe demo (gatt_driver_probe demo demo_world 10).2 20).1 = 0 ∧
    (state_changed demo (gatt_driver_probe demo (gatt_driver_probe demo demo_world 10).2 20).2
        10 BTD_SERVICE_STATE_DISCONNECTED BTD_SERVICE_STATE_CONNECTED 10).reads =
      [⟨1, some 202, Callback.read_device_name_chr_cb, 1⟩,
       ⟨1, some 204, Callback.read_appearance_chr_cb, 1⟩] ∧
    (gatt_driver_remove (gatt_driver_probe demo (gatt_driver_probe demo demo_world 10).2 20).2
        10).state_callbacks = [⟨1, Callback.state_changed, 10⟩] :=
  have h := probes_share_cache demo demo_world 10 20 BTD_SERVICE_STATE_DISCONNECTED
    (by decide) (by decide) (by decide)
  ⟨by decide, by decide, h.1, h.2.2⟩

/-- C10 as stated fails: A (service 10, device 1) resolves to handles 102 and 104,
B (service 20, device 2) to 202 and 204; after the probes of A and B the reads of
a connected event for A target 202 and 204, and `gatt_driver_remove` of A removes
the observer of B and keeps the one of A. -/
theorem probes_share_cache_cross_peer :
    (gatt_driver_probe demo demo_world 10).1 = 0 ∧
    (gatt_driver_probe demo (gatt_driver_probe demo demo_world 10).2 20).1 = 0 ∧
    spec_gap_value_handle demo 1 GATT_CHARAC_DEVICE_NAME = some 102 ∧
    spec_gap_value_handle demo 1 GATT_CHARAC_APPEARANCE = some 104 ∧
    (gatt_driver_probe demo demo_world 10).2.name = some 102 ∧
    (gatt_driver_probe demo demo_world 10).2.appearance = some 104 ∧
    (state_changed demo (gatt_driver_probe demo (gatt_driver_probe demo demo_world 10).2 20).2
        10 BTD_SERVICE_STATE_DISCONNECTED BTD_SERVICE_STATE_CONNECTED 10).reads ≠
      [⟨1, some 102, Callback.read_device_name_chr_cb, 1⟩,
       ⟨1, some 104, Callback.read_appearance_chr_cb, 1⟩] ∧
    (gatt_driver_probe demo (gatt_driver_probe demo demo_world 10).2 20).2.state_callbacks =
      [⟨1, Callback.state_changed, 10⟩, ⟨2, Callback.state_changed, 20⟩] ∧
    (gatt_driver_remove (gatt_driver_probe demo (gatt_driver_probe demo demo_world 10).2 20).2
        10).state_callbacks ≠ [⟨2, Callback.state_changed, 20⟩] := by
  decide

theorem read_device_name_chr_cb_ok (w : World) (value : List Octet) (len : Nat)
    (device : Device) (hlen : value.length = len) (h1 : 1 ≤ len) (h2 : len < 2 ^ 64) :
    read_device_name_chr_cb w 0 value len device =
      some (device_set_name
              (w.say (LogMsg.name_read ((value.take (len - 1)).takeWhile (fun b => b ≠ 0))))
              device ((value.take (len - 1)).takeWhile (fun b => b ≠ 0)),
            value.take (len - 1) ++ [0]) := by
  subst hlen
  have hp := size_t_pred_eq value.length h1 h2
  have hs := set_last_eq value h1 0
  have hc := c_string_append_nul (value.take (value.length - 1)) []
  have hlt : value.length - 1 < value.length := by omega
  unfold read_device_name_chr_cb
  simp only [hp, hs, hc]
  simp [hlt]

theorem read_appearance_chr_cb_ok (w : World) (lo hi : Octet) (rest : List Octet) (len : Nat)
    (device : Device) :
    read_appearance_chr_cb w 0 (lo :: hi :: rest) len device =
      some (device_set_appearance (w.say (LogMsg.appearance_read (lo.val + 256 * hi.val)))
              device (lo.val + 256 * hi.val),
            lo :: hi :: rest) := by
  unfold read_appearance_chr_cb
  rw [att_get_u16_cons]
  simp

theorem read_completion_err (w : World) (err : Int) (value : List Octet) (len : Nat)
    (device : Device) (herr : err ≠ 0) :
    read_device_name_chr_cb w err value len device =
      some (w.say (LogMsg.name_read_failed err), value) ∧
    read_appearance_chr_cb w err value len device =
      some (w.say (LogMsg.appearance_read_failed err), value) := by
  simp [read_device_name_chr_cb, read_appearance_chr_cb, herr]

/-- C11: on the peer records the two read-completion handlers commute.  For every
world, every Name completion with a payload of `len ≥ 1` bytes and every Appearance
completion with a payload of at least two bytes, each with any error code, both
orders of the two handlers return, give back the same buffers and end with the
same peer records.  The name handler leaves the appearance and the state of every
peer and the whole record of every other peer as they were; the appearance handler
leaves the name and the state of every peer and the whole record of every other
peer as they were. -/
theorem read_completions_commute (w : World) (err_n err_a : Int) (vn va : List Octet)
    (len_n len_a : Nat) (dn da : Device)
    (hn : vn.length = len_n) (h1 : 1 ≤ len_n) (h2 : len_n < 2 ^ 64) (ha : 2 ≤ va.length) :
    ∃ wn wa wna wan bn ba,
      read_device_name_chr_cb w err_n vn len_n dn = some (wn, bn) ∧
      read_appearance_chr_cb wn err_a va len_a da = some (wna, ba) ∧
      read_appearance_chr_cb w err_a va len_a da = some (wa, ba) ∧
      read_device_name_chr_cb wa err_n vn len_n dn = some (wan, bn) ∧
      wna.devices = wan.devices ∧
      (∀ d, (wn.devices d).appearance = (w.devices d).appearance ∧
            (wn.devices d).state = (w.devices d).state) ∧
      (∀ d, d ≠ dn → wn.devices d = w.devices d) ∧
      (∀ d, (wa.devices d).name = (w.devices d).name ∧
            (wa.devices d).state = (w.devices d).state) ∧
      (∀ d, d ≠ da → wa.devices d = w.devices d) := by
  match va, ha with
  | lo :: hi :: rest, _ =>
    by_cases en : err_n = 0
    · subst en
      by_cases ea : err_a = 0
      · subst ea
        refine ⟨_, _, _, _, _, _, read_device_name_chr_cb_ok w vn len_n dn hn h1 h2,
          read_appearance_chr_cb_ok _ lo hi rest len_a da,
          read_appearance_chr_cb_ok w lo hi rest len_a da,
          read_device_name_chr_cb_ok _ vn len_n dn hn h1 h2, ?_, ?_, ?_, ?_, ?_⟩
        · funext d
          simp only [device_set_name, device_set_appearance, World.say]
          split_ifs <;> rfl
        · intro d
          simp only [device_set_name, World.say]
          split_ifs <;> exact ⟨rfl, rfl⟩
        · intro d hd
          simp [device_set_name, World.say, hd]
        · intro d
          simp only [device_set_appearance, World.say]
          split_ifs <;> exact ⟨rfl, rfl⟩
        · intro d hd
          simp [device_set_appearance, World.say, hd]
      · refine ⟨_, _, _, _, _, _, read_device_name_chr_cb_ok w vn len_n dn hn h1 h2,
          (read_completion_err _ err_a _ len_a da ea).2,
          (read_completion_err w err_a _ len_a da ea).2,
          read_device_name_chr_cb_ok _ vn len_n dn hn h1 h2, ?_, ?_, ?_, ?_, ?_⟩
        · rfl
        · intro d
          simp only [device_set_name, World.say]
          split_ifs <;> exact ⟨rfl, rfl⟩
        · intro d hd
          simp [device_set_name, World.say, hd]
        · intro d
          exact ⟨rfl, rfl⟩
        · intro d _
          rfl
    · by_cases ea : err_a = 0
      · subst ea
        refine ⟨_, _, _, _, _, _, (read_completion_err w err_n vn len_n dn en).1,
          read_appearance_chr_cb_ok _ lo hi rest len_a da,
          read_appearance_chr_cb_ok w lo hi rest len_a da,
          (read_completion_err _ err_n vn len_n dn en).1, ?_, ?_, ?_, ?_, ?_⟩
        · rfl
        · intro d
          exact ⟨rfl, rfl⟩
        · intro d _
          rfl
        · intro d
          simp only [device_set_appearance, World.say]
          split_ifs <;> exact ⟨rfl, rfl⟩
        · intro d hd
          simp [device_set_appearance, World.say, hd]
      · refine ⟨_, _, _, _, _, _, (read_completion_err w err_n vn len_n dn en).1,
          (read_completion_err _ err_a _ len_a da ea).2,
          (read_completion_err w err_a _ len_a da ea).2,
          (read_completion_err _ err_n vn len_n dn en).1, rfl, ?_, ?_, ?_, ?_⟩
        · intro d
          exact ⟨rfl, rfl⟩
        · intro d _
          rfl
        · intro d
          exact ⟨rfl, rfl⟩
        · intro d _
          rfl

/-- C11, for the payloads `Widget\0` and `[0x40, 0x03]` completed without error on
peer 1: both orders end with name `Widget` and appearance `0x0340`. -/
theorem read_completions_commute_witness :
    ([0x57, 0x69, 0x64, 0x67, 0x65, 0x74, 0x00] : List Octet).length = 7 ∧
    2 ≤ ([0x40, 0x03] : List Octet).length ∧
    ∃ wn wa wna wan bn ba,
      read_device_name_chr_cb demo_world 0 [0x57, 0x69, 0x64, 0x67, 0x65, 0x74, 0x00] 7 1 =
        some (wn, bn) ∧
      read_appearance_chr_cb wn 0 [0x40, 0x03] 2 1 = some (wna, ba) ∧
      read_appearance_chr_cb demo_world 0 [0x40, 0x03] 2 1 = some (wa, ba) ∧
      read_device_name_chr_cb wa 0 [0x57, 0x69, 0x64, 0x67, 0x65, 0x74, 0x00] 7 1 =
        some (wan, bn) ∧
      wna.devices = wan.devices ∧
      (∀ d, (wn.devices d).appearance = (demo_world.devices d).appearance ∧
            (wn.devices d).state = (demo_world.devices d).state) ∧
      (∀ d, d ≠ 1 → wn.devices d = demo_world.devices d) ∧
      (∀ d, (wa.devices d).name = (demo_world.devices d).name ∧
            (wa.devices d).state = (demo_world.devices d).state) ∧
      (∀ d, d ≠ 1 → wa.devices d = demo_world.devices d) :=
  ⟨rfl, by decide,
   read_completions_commute demo_world 0 0 [0x57, 0x69, 0x64, 0x67, 0x65, 0x74, 0x00]
     [0x40, 0x03] 7 2 1 1 rfl (by decide) (by decide) (by decide)⟩

/-- C12 fails on the code: a successful Name completion with an empty payload
(`len = 0`) writes at index `len - 1 = 2^64 - 1`, which is not below `len`, and a
successful Appearance completion with a payload of fewer than two bytes reads
index 1 (and index 0 when the payload is empty) outside of it; neither handler
has a defined result there, whatever the world and the peer. -/
theorem read_completion_index_outside_payload (w : World) (device : Device) :
    size_t_pred 0 = 2 ^ 64 - 1 ∧
    ¬ (size_t_pred 0 < ([] : List Octet).length) ∧
    read_device_name_chr_cb w 0 [] 0 device = none ∧
    ¬ (1 < ([0x40] : List Octet).length) ∧
    att_get_u16 [0x40] 0 = none ∧
    read_appearance_chr_cb w 0 [0x40] 1 device = none ∧
    read_appearance_chr_cb w 0 [] 0 device = none := by
  refine ⟨by decide, by decide, ?_, by decide, by decide, ?_, ?_⟩
  · simp [read_device_name_chr_cb]
  · simp [read_appearance_chr_cb, att_get_u16]
  · simp [read_appearance_chr_cb, att_get_u16]

theorem setup_gap_cache (env : Env) (w : World) (device : Device) :
    (setup_gap env w device).2.name =
      (match spec_gap_value_handle env device GATT_CHARAC_DEVICE_NAME with
       | some h => some h
       | none => w.name) ∧
    (setup_gap env w device).2.appearance =
      (match spec_gap_value_handle env device GATT_CHARAC_DEVICE_NAME,
             spec_gap_value_handle env device GATT_CHARAC_APPEARANCE with
       | some _, some a => some a
       | _, _ => w.appearance) := by
  unfold setup_gap spec_gap_value_handle spec_first_service spec_first_char
  cases env.btd_gatt_get_services device GENERIC_ACCESS_PROFILE_ID with
  | nil => simp [World.say]
  | cons gap _ =>
    cases h1 : env.btd_gatt_get_chars_decl device gap GATT_CHARAC_DEVICE_NAME with
    | nil => simp [World.say, h1]
    | cons dn _ =>
      cases h2 : env.btd_gatt_get_chars_decl device gap GATT_CHARAC_APPEARANCE with
      | nil => simp [World.say, h1, h2]
      | cons ap _ => simp [World.say, h1, h2]

theorem gatt_driver_probe_failed (env : Env) (w : World) (service : Service)
    (h : (gatt_driver_probe env w service).1 < 0) :
    (gatt_driver_probe env w service).2.name =
      (setup_gap env w (env.btd_service_get_device service)).2.name ∧
    (gatt_driver_probe env w service).2.appearance =
      (setup_gap env w (env.btd_service_get_device service)).2.appearance ∧
    (gatt_driver_probe env w service).2.service_state_id = w.service_state_id ∧
    (gatt_driver_probe env w service).2.state_callbacks = w.state_callbacks := by
  obtain ⟨-, -, g3, -, g5, -⟩ := setup_gap_frame env w (env.btd_service_get_device service)
  obtain ⟨-, t2, -, t4, t5, t6, -⟩ := setup_gatt_frame env
    (setup_gap env w (env.btd_service_get_device service)).2
    (env.btd_service_get_device service)
  rw [gatt_driver_probe_eq] at h ⊢
  by_cases h0 : (setup_gap env w (env.btd_service_get_device service)).1 < 0
  · rw [if_pos h0]
    exact ⟨rfl, rfl, g5, g3⟩
  · rw [if_neg h0] at h ⊢
    by_cases h1 : (setup_gatt env (setup_gap env w (env.btd_service_get_device service)).2
        (env.btd_service_get_device service)).1 < 0
    · rw [if_pos h1]
      exact ⟨t5, t6, t4.trans g5, t2.trans g3⟩
    · rw [if_neg h1] at h
      exact (lt_irrefl (0 : Int) h).elim

/-- C13, as the code has it: a probe that returns an error leaves the stored
observer id and the observers as they were, and leaves a cached handle as it was
only when the probe fails before resolving it.  When the first Generic Access
service or its Device Name characteristic is absent both cached handles are
unchanged; when Device Name is present the cached Name handle is overwritten
with its value handle; the cached Appearance handle is unchanged when Appearance
is absent and overwritten with its value handle when it is present (the
Generic Attribute service then being the absent element). -/
theorem gatt_driver_probe_failed_cache (env : Env) (w : World) (service : Service)
    (h : (gatt_driver_probe env w service).1 < 0) :
    (gatt_driver_probe env w service).2.service_state_id = w.service_state_id ∧
    (gatt_driver_probe env w service).2.state_callbacks = w.state_callbacks ∧
    (spec_gap_value_handle env (env.btd_service_get_device service)
        GATT_CHARAC_DEVICE_NAME = none →
      (gatt_driver_probe env w service).2.name = w.name ∧
      (gatt_driver_probe env w service).2.appearance = w.appearance) ∧
    (∀ hn, spec_gap_value_handle env (env.btd_service_get_device service)
        GATT_CHARAC_DEVICE_NAME = some hn →
      (gatt_driver_probe env w service).2.name = some hn ∧
      (spec_gap_value_handle env (env.btd_service_get_device service)
          GATT_CHARAC_APPEARANCE = none →
        (gatt_driver_probe env w service).2.appearance = w.appearance) ∧
      (∀ ha, spec_gap_value_handle env (env.btd_service_get_device service)
          GATT_CHARAC_APPEARANCE = some ha →
        (gatt_driver_probe env w service).2.appearance = some ha ∧
        spec_first_service env (env.btd_service_get_device service)
          GENERIC_ATTRIB_PROFILE_ID = none)) := by
  obtain ⟨p1, p2, p3, p4⟩ := gatt_driver_probe_failed env w service h
  obtain ⟨c1, c2⟩ := setup_gap_cache env w (env.btd_service_get_device service)
  rw [p1, p2, c1, c2]
  refine ⟨p3, p4, ?_, ?_⟩
  · intro hn
    rw [hn]
    exact ⟨rfl, rfl⟩
  · intro hn hdn
    rw [hdn]
    refine ⟨rfl, ?_, ?_⟩
    · intro hap
      rw [hap]
    · intro ha hap
      rw [hap]
      refine ⟨rfl, ?_⟩
      by_contra hg
      have hp : spec_mandatory_present env (env.btd_service_get_device service) := by
        refine ⟨by rw [hdn]; rfl, by rw [hap]; rfl, ?_⟩
        exact Option.isSome_iff_ne_none.mpr hg
      obtain ⟨s0, s1⟩ := mandatory_present_setup env w service hp
      rw [gatt_driver_probe_ok env w service s0 s1] at h
      exact lt_irrefl (0 : Int) h

/-- C13, on the sample topology: device 4 has a Device Name but no Appearance
characteristic, the failed probe caches handle 402 as Name handle. -/
theorem gatt_driver_probe_failed_cache_witness :
    (gatt_driver_probe demo demo_world 40).1 < 0 ∧
    (gatt_driver_probe demo demo_world 40).2.service_state_id = demo_world.service_state_id ∧
    (gatt_driver_probe demo demo_world 40).2.state_callbacks = demo_world.state_callbacks ∧
    (gatt_driver_probe demo demo_world 40).2.name = some 402 ∧
    (gatt_driver_probe demo demo_world 40).2.appearance = demo_world.appearance :=
  have h := gatt_driver_probe_failed_cache demo demo_world 40 (by decide)
  ⟨by decide, h.1, h.2.1, (h.2.2.2 402 (by decide)).1, (h.2.2.2 402 (by decide)).2.1 (by decide)⟩

/-- C13 as stated fails: on the start-up world (no cached handle) the probe of
device 4 (Device Name present, Appearance absent) returns `-EIO` and leaves Name
handle 402 cached; the probe of device 5 (Generic Access complete, Generic
Attribute absent) returns `-EIO` and leaves handles 502 and 504 cached; after a
successful probe of device 1 the failed probe of device 4 replaces the Name
handle 102 by 402 and keeps the Appearance handle 104. -/
theorem gatt_driver_probe_failure_not_atomic :
    demo_world.name = none ∧ demo_world.appearance = none ∧
    (gatt_driver_probe demo demo_world 40).1 = - EIO ∧
    (gatt_driver_probe demo demo_world 40).2.name = some 402 ∧
    (gatt_driver_probe demo demo_world 40).2.name ≠ demo_world.name ∧
    (gatt_driver_probe demo demo_world 50).1 = - EIO ∧
    (gatt_driver_probe demo demo_world 50).2.name = some 502 ∧
    (gatt_driver_probe demo demo_world 50).2.appearance = some 504 ∧
    (gatt_driver_probe demo demo_world 50).2.appearance ≠ demo_world.appearance ∧
    (gatt_driver_probe demo demo_world 10).1 = 0 ∧
    (gatt_driver_probe demo demo_world 10).2.name = some 102 ∧
    (gatt_driver_probe demo (gatt_driver_probe demo demo_world 10).2 40).1 = - EIO ∧
    (gatt_driver_probe demo (gatt_driver_probe demo demo_world 10).2 40).2.name = some 402 ∧
    (gatt_driver_probe demo (gatt_driver_probe demo demo_world 10).2 40).2.appearance =
      some 104 := by
  decide

end Gatt
